import Mathlib

/-!
# Verification of the asynchronous checkout pipeline

Shallow embedding, in Lean 4, of the event-driven checkout pipeline of the
`system-design-lab` repository (`src/ecommerce-microservices`):

* the Order Service `checkout` endpoint (`services/order-service/app/main.py`),
* the Payment Worker (`services/payment-service/app/event_consumer.py`),
* the Email Worker (`services/email-service/app/event_consumer.py`),
* the decimal amounts that flow between them.

Monetary amounts are Python `decimal.Decimal` values.  A `Decimal` is a pair
of an integer mantissa (with sign) and a base-10 exponent; arithmetic on the
amounts appearing here (sums and products of order line items) is exact.  We
model a `Decimal` as such a pair (`PyDecimal`).  Two aspects of CPython's
`decimal` are deliberately outside the model: context precision (the default
28-significant-digit rounding never binds for the amounts the services
exchange) and the sign of negative zero (value-irrelevant).

The stored amount columns (`Order.total_amount`, `Payment.amount`) are
declared `Numeric(10, 2)` in `models.py` of both services, and both services
run on PostgreSQL (`config.py`).  PostgreSQL rounds a value assigned to a
`numeric(10,2)` column to scale 2, half away from zero, and returns it with
exponent -2; `quantize2` models that round trip.  The 10-digit precision cap
(amounts of 1e8 and beyond error out) is outside the model.
-/

/-- A Python `decimal.Decimal` value: `mant * 10 ^ exp`. -/
structure PyDecimal where
  mant : Int
  exp : Int
deriving DecidableEq, Repr

/-- The rational value of a `PyDecimal`. -/
def decValue (d : PyDecimal) : ℚ := (d.mant : ℚ) * (10 : ℚ) ^ d.exp

/-- `Decimal(n)` for an integer `n` (exponent 0), as produced when a Python
`int` is coerced into a `Decimal` operation. -/
def decOfInt (n : Int) : PyDecimal := ⟨n, 0⟩

/-- Exact `Decimal` addition: mantissas aligned to the smaller exponent.
This is CPython's `Decimal.__add__` on the exact (unrounded) path. -/
def decAdd (a b : PyDecimal) : PyDecimal :=
  ⟨a.mant * 10 ^ (a.exp - min a.exp b.exp).toNat
     + b.mant * 10 ^ (b.exp - min a.exp b.exp).toNat,
   min a.exp b.exp⟩

/-- Exact `Decimal` multiplication: mantissas multiply, exponents add.
This is CPython's `Decimal.__mul__` on the exact (unrounded) path. -/
def decMul (a b : PyDecimal) : PyDecimal := ⟨a.mant * b.mant, a.exp + b.exp⟩

/-- Integer division rounding half away from zero: `roundHalfAway a b` is
`a / b` rounded to the nearest integer, ties away from zero (`b > 0`).
This is the rounding PostgreSQL applies when a `numeric` value is brought
to a column's declared scale. -/
def roundHalfAway (a : Int) (b : Nat) : Int :=
  if 0 ≤ a then (2 * a + b) / (2 * b) else -((2 * (-a) + b) / (2 * b))

/-- The effect, on a stored amount, of writing it to a PostgreSQL
`Numeric(10, 2)` column and reading it back: the value is rounded to scale 2
(half away from zero) and comes back with exponent -2. -/
def quantize2 (d : PyDecimal) : PyDecimal :=
  if -2 ≤ d.exp then ⟨d.mant * 10 ^ (d.exp + 2).toNat, -2⟩
  else ⟨roundHalfAway d.mant (10 ^ (-(d.exp + 2)).toNat), -2⟩

/-- Little-endian base-10 digits of a natural number, driven by a fuel
argument so that the definition is structurally recursive (and therefore
reduces inside `decide`/`rfl`).  `digitsLEFuel f n = Nat.digits 10 n`
whenever `n ≤ f`. -/
def digitsLEFuel : Nat → Nat → List Nat
  | 0, _ => []
  | _ + 1, 0 => []
  | f + 1, n + 1 => (n + 1) % 10 :: digitsLEFuel f ((n + 1) / 10)

/-- The character for a decimal digit. -/
def digitChar : Nat → Char
  | 0 => '0'
  | 1 => '1'
  | 2 => '2'
  | 3 => '3'
  | 4 => '4'
  | 5 => '5'
  | 6 => '6'
  | 7 => '7'
  | 8 => '8'
  | _ => '9'

/-- The numeric value of a decimal digit character. -/
def charVal (c : Char) : Nat := c.toNat - 48

/-- Big-endian decimal digit characters of `n`, with `"0"` for zero —
CPython keeps the single digit `'0'` in `Decimal._int` for a zero value. -/
def decDigits (n : Nat) : List Char :=
  if n = 0 then ['0'] else (digitsLEFuel n n).reverse.map digitChar

/-- Numeric value of a string of decimal digit characters (most significant
first). -/
def natFromDigits (l : List Char) : Nat :=
  l.foldl (fun a c => 10 * a + charVal c) 0

/-- Split off the longest leading run of decimal digit characters. -/
def takeDigits : List Char → List Char × List Char
  | [] => ([], [])
  | c :: t =>
    if c.isDigit then
      let p := takeDigits t
      (c :: p.1, p.2)
    else ([], c :: t)

/-- The exponent suffix Python renders with `"%+d" % n`: an explicit sign
followed by the decimal digits. -/
def signedIntStr (n : Int) : List Char :=
  (if 0 ≤ n then ['+'] else ['-']) ++ decDigits n.natAbs

/-- CPython `Decimal.__str__` (finite values, `eng=False`) for a
non-negative mantissa `n` and exponent `e`: the digit string is cut at
`dotplace`; plain fixed-point notation is used when `e ≤ 0` and the
adjusted exponent stays above -6, scientific notation (one digit before
the point, `E`-suffix) otherwise. -/
def pyUnsignedStr (n : Nat) (e : Int) : List Char :=
  let digs := decDigits n
  let leftdigits : Int := e + digs.length
  let dotplace : Int := if e ≤ 0 ∧ -6 < leftdigits then leftdigits else 1
  let body : List Char :=
    if dotplace ≤ 0 then
      '0' :: '.' :: (List.replicate (-dotplace).toNat '0' ++ digs)
    else if (digs.length : Int) ≤ dotplace then
      digs ++ List.replicate (dotplace - digs.length).toNat '0'
    else
      digs.take dotplace.toNat ++ '.' :: digs.drop dotplace.toNat
  let suffix : List Char :=
    if leftdigits = dotplace then [] else 'E' :: signedIntStr (leftdigits - dotplace)
  body ++ suffix

/-- `str(d)` for a Python `Decimal` `d`: the sign, then the unsigned
rendering of mantissa and exponent.  (The sign of a negative zero is not
tracked by the model; see the header note.) -/
def pyStr (d : PyDecimal) : List Char :=
  (if d.mant < 0 then ['-'] else []) ++ pyUnsignedStr d.mant.natAbs d.exp

/-- Parse of the exponent written after `E`: an optional sign and at least
one digit, which must exhaust the input. -/
def parseExpPart (s : List Char) : Option Int :=
  if s.head? = some '+' then
    if s.tail ≠ [] ∧ (takeDigits s.tail).2 = [] then
      some ((natFromDigits (takeDigits s.tail).1 : Int))
    else none
  else if s.head? = some '-' then
    if s.tail ≠ [] ∧ (takeDigits s.tail).2 = [] then
      some (-((natFromDigits (takeDigits s.tail).1 : Int)))
    else none
  else
    if s ≠ [] ∧ (takeDigits s).2 = [] then some ((natFromDigits (takeDigits s).1 : Int))
    else none

/-- The unsigned core of CPython `Decimal(str)`:
`digits [. digits] [(E|e) [sign] digits]` with at least one digit overall;
returns the mantissa (the concatenated digits) and the exponent (the
written exponent minus the number of fractional digits). -/
def parseMagnitude (s : List Char) : Option (Nat × Int) :=
  let ip := (takeDigits s).1
  let r1 := (takeDigits s).2
  let fr : List Char × List Char :=
    if r1.head? = some '.' then ((takeDigits r1.tail).1, (takeDigits r1.tail).2) else ([], r1)
  let fp := fr.1
  let r2 := fr.2
  if ip = [] ∧ fp = [] then none
  else if r2 = [] then some (natFromDigits (ip ++ fp), -(fp.length : Int))
  else if r2.head? = some 'E' ∨ r2.head? = some 'e' then
    (parseExpPart r2.tail).map fun ex => (natFromDigits (ip ++ fp), ex - (fp.length : Int))
  else none

/-- CPython `Decimal(str)` construction on finite numeric strings: an
optional sign followed by the magnitude.  (Surrounding whitespace,
underscore separators and the special values `Infinity`/`NaN`, which
CPython also accepts, never occur on the strings this pipeline exchanges
and are not modelled.) -/
def parseDecStr (s : List Char) : Option PyDecimal :=
  if s.head? = some '-' then (parseMagnitude s.tail).map fun p => ⟨-(p.1 : Int), p.2⟩
  else if s.head? = some '+' then (parseMagnitude s.tail).map fun p => ⟨(p.1 : Int), p.2⟩
  else (parseMagnitude s).map fun p => ⟨(p.1 : Int), p.2⟩

/-- `OrderItemRequest` pydantic schema of the Order Service (and of the API
gateway, which declares the identical one): `product_id : int`,
`quantity : int`, `price : Decimal`.  Pydantic enforces the types only — no
bound on `quantity` or `price` is declared. -/
structure OrderItemRequest where
  product_id : Int
  quantity : Int
  price : PyDecimal
deriving DecidableEq, Repr

/-- `CheckoutRequest` pydantic schema: `user_id`, `user_email`, `items`.
No constraint on `items` is declared; the empty list is accepted. -/
structure CheckoutRequest where
  user_id : Int
  user_email : String
  items : List OrderItemRequest
deriving DecidableEq, Repr

/-- Step 1 of `checkout`:
`total_amount = sum(item.price * item.quantity for item in request.items)`.
Python's `sum` starts from the `int` 0, coerced into `Decimal` arithmetic;
`item.price * item.quantity` coerces the `int` quantity likewise. -/
def computeTotal (items : List OrderItemRequest) : PyDecimal :=
  items.foldl (fun acc it => decAdd acc (decMul it.price (decOfInt it.quantity))) (decOfInt 0)

/-- A persisted `Order` row (`services/order-service/app/models.py`).
`total_amount` is a `Numeric(10, 2)` column, so the value visible after
`db.commit(); db.refresh(order)` is the quantized one.  The timestamp
columns carry no claim-relevant information and are omitted. -/
structure OrderRow where
  id : Int
  user_id : Int
  user_email : String
  status : String
  total_amount : PyDecimal
  items : List OrderItemRequest
  processing_duration_ms : Option Int
deriving DecidableEq, Repr

/-- The `order.created` event dict that `checkout` builds in step 3.  Its
`total_amount` entry is the string `str(order.total_amount)`; `event_id`
and `timestamp` are the `uuid.uuid4()` / `datetime.now()` strings, opaque
here. -/
structure OrderCreatedEvent where
  event_type : String
  event_id : String
  timestamp : String
  order_id : Int
  user_id : Int
  user_email : String
  total_amount : List Char
  items : List OrderItemRequest
deriving DecidableEq, Repr

/-- `OrderResponse` pydantic schema, as the `checkout` and order-read
endpoints return it. -/
structure OrderResponse where
  id : Int
  user_id : Int
  user_email : String
  status : String
  total_amount : PyDecimal
  items : List OrderItemRequest
  processing_duration_ms : Int
deriving DecidableEq, Repr

/-- One call handed to `EventPublisher.publish_event`: routing key and
payload. -/
structure OrderPublish where
  routing_key : String
  event : OrderCreatedEvent
deriving DecidableEq, Repr

/-- Everything one `POST /checkout` request leaves behind: the persisted
row, the events that reached the broker, and the HTTP response body. -/
structure CheckoutOutcome where
  order : OrderRow
  publishes : List OrderPublish
  response : OrderResponse
deriving DecidableEq, Repr

/-- The `checkout` handler of the Order Service
(`services/order-service/app/main.py`), with the ambient nondeterminism
passed explicitly: `orderId` is the primary key the database assigns,
`eventId`/`now` stand for `uuid.uuid4()` and `datetime.now().isoformat()`,
`durationMs` is the measured elapsed time, and `publishRaises` says whether
`event_publisher.publish_event` raises (broker unreachable).  The handler
validates nothing.  It computes the total, persists the order with status
`"pending"` (the `Numeric(10,2)` column quantizes the total), publishes an
`order.created` event with routing key `"order.order.created"` — a publish
failure is caught, logged and deliberately ignored — then commits the
measured duration onto the row and returns the order data as the
response. -/
def checkout (req : CheckoutRequest) (orderId : Int) (eventId now : String)
    (durationMs : Int) (publishRaises : Bool) : CheckoutOutcome :=
  let total_amount := computeTotal req.items
  let order0 : OrderRow :=
    { id := orderId, user_id := req.user_id, user_email := req.user_email,
      status := "pending", total_amount := quantize2 total_amount,
      items := req.items, processing_duration_ms := none }
  let event : OrderCreatedEvent :=
    { event_type := "order.created", event_id := eventId, timestamp := now,
      order_id := order0.id, user_id := order0.user_id,
      user_email := order0.user_email,
      total_amount := pyStr order0.total_amount, items := order0.items }
  let publishes : List OrderPublish :=
    if publishRaises then [] else [⟨"order.order.created", event⟩]
  let order1 := { order0 with processing_duration_ms := some durationMs }
  { order := order1,
    publishes := publishes,
    response :=
      { id := order1.id, user_id := order1.user_id,
        user_email := order1.user_email, status := order1.status,
        total_amount := order1.total_amount, items := order1.items,
        processing_duration_ms := durationMs } }

/-- The `GET /orders/{order_id}` handler applied to a found row: every
field is returned as stored (`processing_duration_ms or 0`); nothing is
recomputed. -/
def getOrder (order : OrderRow) : OrderResponse :=
  { id := order.id, user_id := order.user_id, user_email := order.user_email,
    status := order.status, total_amount := order.total_amount,
    items := order.items,
    processing_duration_ms := order.processing_duration_ms.getD 0 }

/-- The specification's Σ(price × quantity) over the submitted items, as an
exact rational — written from the spec sentence, to compare against the
code's `computeTotal`. -/
def specItemsTotal (items : List OrderItemRequest) : ℚ :=
  (items.map (fun it => decValue it.price * (it.quantity : ℚ))).sum

/-- The `event_type` default the `PaymentFailedEvent` schema declares in
`shared/events.py` — declared there, never published by any service. -/
def paymentFailedEventType : String := "payment.failed"

/-- A Python exception as the worker code observes it. -/
inductive PyErr
  | keyError (key : String)
  | invalidOperation
  | unboundLocal
  | jsonDecodeError
deriving DecidableEq, Repr

/-- The `order.created` event dict as the Payment Worker receives it from
`json.loads`: each field the worker subscripts may be present or absent
(the worker never reads `items`), and `total_amount` is the raw string. -/
structure OrderCreatedMsg where
  event_type : Option String
  order_id : Option Int
  user_id : Option Int
  user_email : Option String
  total_amount : Option (List Char)
deriving DecidableEq, Repr

/-- JSON transport of a published `order.created` event into the consumer's
dict: every field the publisher set arrives present. -/
def msgOfEvent (e : OrderCreatedEvent) : OrderCreatedMsg :=
  { event_type := some e.event_type, order_id := some e.order_id,
    user_id := some e.user_id, user_email := some e.user_email,
    total_amount := some e.total_amount }

/-- A `Payment` row (`services/payment-service/app/models.py`); `amount` is
a `Numeric(10, 2)` column. -/
structure PaymentRow where
  id : Int
  order_id : Int
  user_id : Int
  amount : PyDecimal
  status : String
  transaction_id : Option String
deriving DecidableEq, Repr

/-- The `payment.processed` event dict built by `publish_payment_event`:
`amount` is `str(payment.amount)`. -/
structure PaymentProcessedEvent where
  event_type : String
  event_id : String
  timestamp : String
  payment_id : Int
  order_id : Int
  user_id : Int
  user_email : String
  amount : List Char
  status : String
  transaction_id : Option String
deriving DecidableEq, Repr

/-- One `basic_publish` call the Payment Worker makes: routing key and
payload. -/
structure PaymentPublish where
  routing_key : String
  event : PaymentProcessedEvent
deriving DecidableEq, Repr

/-- What one `process_payment(order_data)` call leaves behind: the row as
first committed (always status `"pending"`), the row as last committed,
the publish calls made, and the exception that escaped the method, if
any. -/
structure ProcessPaymentOutcome where
  created : Option PaymentRow
  final : Option PaymentRow
  published : List PaymentPublish
  raised : Option PyErr
deriving DecidableEq, Repr

/-- `PaymentEventConsumer.process_payment`, with the ambient nondeterminism
explicit: `paymentId` is the key the database assigns, `txn` the generated
`TXN-…` transaction id, `eventId`/`now` feed the published event, and
`gatewayRaises` says whether the simulated payment-gateway call raises.
The control flow is modelled statement by statement:

* the two opening log lines subscript `order_data['order_id']` and
  `order_data['total_amount']` **before** the `try` block, so a missing key
  raises a `KeyError` that propagates out of the method uncaught;
* inside the `try`, building the `Payment` row subscripts
  `order_data['user_id']` and runs `Decimal(order_data['total_amount'])`;
  a failure there (`KeyError` / `InvalidOperation`) is caught by the
  `except`, whose own first action reads the never-bound local `payment`
  (`if payment:`) — an `UnboundLocalError` escapes, and no row exists;
* once the row is committed (status `"pending"`), a gateway failure is
  caught by the `except` and the row is committed as `"failed"`;
* otherwise the row is committed as `"completed"` with the transaction id
  and `publish_payment_event` runs: its event dict subscripts
  `order_data['user_email']` **outside** its inner `try`, so a missing
  email raises a `KeyError` caught by the outer `except`, which flips the
  already-completed row to `"failed"` (keeping the transaction id); a
  broker error raised by `basic_publish` is caught inside
  `publish_payment_event` itself and changes nothing recorded here. -/
def processPayment (msg : OrderCreatedMsg) (paymentId : Int) (txn : String)
    (eventId now : String) (gatewayRaises : Bool) : ProcessPaymentOutcome :=
  match msg.order_id with
  | none => ⟨none, none, [], some (.keyError "order_id")⟩
  | some oid =>
    match msg.total_amount with
    | none => ⟨none, none, [], some (.keyError "total_amount")⟩
    | some amtStr =>
      match msg.user_id with
      | none => ⟨none, none, [], some .unboundLocal⟩
      | some uid =>
        match parseDecStr amtStr with
        | none => ⟨none, none, [], some .unboundLocal⟩
        | some amt =>
          let payment : PaymentRow :=
            { id := paymentId, order_id := oid, user_id := uid,
              amount := quantize2 amt, status := "pending",
              transaction_id := none }
          if gatewayRaises then
            ⟨some payment, some { payment with status := "failed" }, [], none⟩
          else
            let completed :=
              { payment with status := "completed", transaction_id := some txn }
            match msg.user_email with
            | none => ⟨some payment, some { completed with status := "failed" }, [], none⟩
            | some email =>
              let event : PaymentProcessedEvent :=
                { event_type := "payment.processed", event_id := eventId,
                  timestamp := now, payment_id := completed.id,
                  order_id := completed.order_id, user_id := completed.user_id,
                  user_email := email, amount := pyStr completed.amount,
                  status := completed.status,
                  transaction_id := completed.transaction_id }
              ⟨some payment, some completed,
                [⟨"payment.payment.processed", event⟩], none⟩

/-- A consumer's answer for one delivery: `basic_ack`, or `basic_nack`
with its `requeue` flag. -/
inductive AckOutcome
  | ack
  | nack (requeue : Bool)
deriving DecidableEq, Repr

/-- What one delivery to `PaymentEventConsumer.callback` leaves behind. -/
structure PaymentCallbackOutcome where
  proc : Option ProcessPaymentOutcome
  result : AckOutcome
  caught : Option PyErr
deriving DecidableEq, Repr

/-- `PaymentEventConsumer.callback`: parse the body (`body = none` models a
`json.loads` failure), log `event_data['event_type']` (a missing key
raises), run `process_payment`, then `basic_ack`; any exception reaching
the callback is caught and answered with `basic_nack(requeue=False)`. -/
def paymentCallback (body : Option OrderCreatedMsg) (paymentId : Int) (txn : String)
    (eventId now : String) (gatewayRaises : Bool) : PaymentCallbackOutcome :=
  match body with
  | none => ⟨none, .nack false, some .jsonDecodeError⟩
  | some m =>
    match m.event_type with
    | none => ⟨none, .nack false, some (.keyError "event_type")⟩
    | some _ =>
      let o := processPayment m paymentId txn eventId now gatewayRaises
      match o.raised with
      | some err => ⟨some o, .nack false, some err⟩
      | none => ⟨some o, .ack, none⟩

/-- The `payment.processed` event dict as the Email Worker receives it from
`json.loads`: each field the worker reads may be present or absent. -/
structure PaymentProcessedMsg where
  event_type : Option String
  status : Option String
  user_email : Option String
  order_id : Option Int
  amount : Option (List Char)
  transaction_id : Option String
deriving DecidableEq, Repr

/-- JSON transport of a published `payment.processed` event into the Email
Worker's dict: every field the publisher set arrives present. -/
def msgOfPaymentEvent (e : PaymentProcessedEvent) : PaymentProcessedMsg :=
  { event_type := some e.event_type, status := some e.status,
    user_email := some e.user_email, order_id := some e.order_id,
    amount := some e.amount, transaction_id := e.transaction_id }

/-- One invocation of `send_order_confirmation_email` with its template
arguments.  Modelled from the spec: `email_sender.py` is not part of the
source tree; per the spec the send step sends "a confirmation message to
the buyer's email address (templated with order id, amount, transaction
id)" and may fail by raising, which leaves the attempt made. -/
structure EmailAttempt where
  user_email : String
  order_id : Int
  amount : List Char
  transaction_id : String
deriving DecidableEq, Repr

/-- `EmailEventConsumer.send_confirmation_email`: builds the keyword
arguments `payment_data['user_email']`, `payment_data['order_id']`,
`payment_data['amount']`, `payment_data.get('transaction_id', 'N/A')` and
calls the sender; **any** exception — a missing key as much as a send
failure (`sendRaises`) — is caught and logged inside this method, so
nothing escapes it.  Returns the send attempts actually started (none when
a key is missing, because the `KeyError` fires before the sender is
entered). -/
def sendConfirmationEmail (m : PaymentProcessedMsg) (_sendRaises : Bool) :
    List EmailAttempt :=
  match m.user_email, m.order_id, m.amount with
  | some em, some oid, some am => [⟨em, oid, am, m.transaction_id.getD "N/A"⟩]
  | _, _, _ => []

/-- What one delivery to `EmailEventConsumer.callback` leaves behind. -/
structure EmailCallbackOutcome where
  attempts : List EmailAttempt
  result : AckOutcome
  caught : Option PyErr
deriving DecidableEq, Repr

/-- `EmailEventConsumer.callback`: parse the body (`body = none` models a
`json.loads` failure), log `event_data['event_type']` (a missing key
raises), send the confirmation email when
`event_data.get('status') == 'completed'` (otherwise only a warning is
logged), then `basic_ack`; any exception reaching the callback is caught
and answered with `basic_nack(requeue=False)`. -/
def emailCallback (body : Option PaymentProcessedMsg) (sendRaises : Bool) :
    EmailCallbackOutcome :=
  match body with
  | none => ⟨[], .nack false, some .jsonDecodeError⟩
  | some m =>
    match m.event_type with
    | none => ⟨[], .nack false, some (.keyError "event_type")⟩
    | some _ =>
      let attempts :=
        if m.status = some "completed" then sendConfirmationEmail m sendRaises else []
      ⟨attempts, .ack, none⟩

/-- Concrete fixture: the line items of the spec's §8 scenario,
`[{product 1, qty 2, price 10.00}, {product 2, qty 1, price 5.00}]`. -/
def demoItems : List OrderItemRequest := [⟨1, 2, ⟨1000, -2⟩⟩, ⟨2, 1, ⟨500, -2⟩⟩]

/-- Concrete fixture: the spec's §8 checkout request (buyer 42 /
`buyer@example.com`). -/
def demoReq : CheckoutRequest := ⟨42, "buyer@example.com", demoItems⟩

/-- Concrete fixture: a well-formed `order.created` dict as the Payment
Worker would receive it for an order of 25.00. -/
def demoMsg : OrderCreatedMsg :=
  ⟨some "order.created", some 3, some 42, some "buyer@example.com",
    some ('2' :: '5' :: '.' :: '0' :: '0' :: [])⟩

/-- Concrete fixture: a well-formed completed `payment.processed` dict as
the Email Worker would receive it. -/
def demoPayMsg : PaymentProcessedMsg :=
  ⟨some "payment.processed", some "completed", some "buyer@example.com",
    some 3, some ('2' :: '5' :: '.' :: '0' :: '0' :: []), some "TXN-1"⟩

theorem decValue_decOfInt (n : Int) : decValue (decOfInt n) = (n : ℚ) := by
  simp [decValue, decOfInt]

theorem ten_zpow_ne_zero (e : Int) : (10 : ℚ) ^ e ≠ 0 :=
  zpow_ne_zero e (by norm_num)

theorem mant_shift_value (m e e' : Int) (h : e' ≤ e) :
    ((m * 10 ^ (e - e').toNat : Int) : ℚ) * (10 : ℚ) ^ e' = (m : ℚ) * (10 : ℚ) ^ e := by
  have he : (((e - e').toNat : Int)) = e - e' := Int.toNat_of_nonneg (by omega)
  push_cast
  rw [mul_assoc, ← zpow_natCast (10 : ℚ) (e - e').toNat, ← zpow_add₀ (by norm_num : (10 : ℚ) ≠ 0),
    he, sub_add_cancel]

theorem decValue_decAdd (a b : PyDecimal) :
    decValue (decAdd a b) = decValue a + decValue b := by
  unfold decValue decAdd
  simp only
  push_cast
  rw [add_mul]
  rw [show ((a.mant : ℚ) * (10 : ℚ) ^ ((a.exp - min a.exp b.exp).toNat : ℕ)) * (10 : ℚ) ^ (min a.exp b.exp)
        = ((a.mant * 10 ^ (a.exp - min a.exp b.exp).toNat : Int) : ℚ) * (10 : ℚ) ^ (min a.exp b.exp) by push_cast; ring]
  rw [show ((b.mant : ℚ) * (10 : ℚ) ^ ((b.exp - min a.exp b.exp).toNat : ℕ)) * (10 : ℚ) ^ (min a.exp b.exp)
        = ((b.mant * 10 ^ (b.exp - min a.exp b.exp).toNat : Int) : ℚ) * (10 : ℚ) ^ (min a.exp b.exp) by push_cast; ring]
  rw [mant_shift_value a.mant a.exp (min a.exp b.exp) (min_le_left _ _),
    mant_shift_value b.mant b.exp (min a.exp b.exp) (min_le_right _ _)]

theorem decValue_decMul (a b : PyDecimal) :
    decValue (decMul a b) = decValue a * decValue b := by
  unfold decValue decMul
  simp only
  push_cast
  rw [zpow_add₀ (by norm_num : (10 : ℚ) ≠ 0)]
  ring

theorem quantize2_exp (d : PyDecimal) : (quantize2 d).exp = -2 := by
  unfold quantize2
  split <;> rfl

theorem decValue_quantize2_of_le (d : PyDecimal) (h : -2 ≤ d.exp) :
    decValue (quantize2 d) = decValue d := by
  unfold quantize2
  rw [if_pos h]
  have hexp : (d.exp + 2).toNat = (d.exp - (-2)).toNat := by norm_num
  unfold decValue
  simp only [hexp]
  exact mant_shift_value d.mant d.exp (-2) h

/-- `quantize2` is the identity on values already stored at scale 2. -/
theorem quantize2_idem (d : PyDecimal) (h : d.exp = -2) : quantize2 d = d := by
  unfold quantize2
  rw [if_pos (by omega)]
  cases d with
  | mk m e =>
    simp only at h
    subst h
    simp

theorem digitsLEFuel_eq_digits (f : Nat) : ∀ n, n ≤ f → digitsLEFuel f n = Nat.digits 10 n := by
  induction f with
  | zero =>
    intro n h
    interval_cases n
    simp [digitsLEFuel]
  | succ f ih =>
    intro n h
    match n with
    | 0 => simp [digitsLEFuel]
    | n + 1 =>
      have hstep : digitsLEFuel (f + 1) (n + 1) = (n + 1) % 10 :: digitsLEFuel f ((n + 1) / 10) := rfl
      have hdiv : (n + 1) / 10 < n + 1 := Nat.div_lt_self (Nat.succ_pos n) (by norm_num)
      rw [hstep, Nat.digits_def' (by norm_num : (1 : ℕ) < 10) (Nat.succ_pos n),
        ih ((n + 1) / 10) (by omega)]

theorem charVal_digitChar {d : Nat} (h : d < 10) : charVal (digitChar d) = d := by
  interval_cases d <;> decide

theorem digitChar_isDigit {d : Nat} (h : d < 10) : (digitChar d).isDigit = true := by
  interval_cases d <;> decide

theorem decDigits_ne_nil (n : Nat) : decDigits n ≠ [] := by
  unfold decDigits
  split
  · simp
  · rename_i hn
    rw [digitsLEFuel_eq_digits n n le_rfl]
    simp [Nat.digits_ne_nil_iff_ne_zero, hn]

theorem decDigits_isDigit (n : Nat) : ∀ c ∈ decDigits n, c.isDigit = true := by
  intro c hc
  unfold decDigits at hc
  split at hc
  · simp at hc
    subst hc
    decide
  · rw [digitsLEFuel_eq_digits n n le_rfl] at hc
    simp only [List.mem_map, List.mem_reverse] at hc
    obtain ⟨d, hd, rfl⟩ := hc
    exact digitChar_isDigit (Nat.digits_lt_base (by norm_num) hd)

theorem natFromDigits_aux (l : List Char) (a : Nat) :
    l.foldl (fun a c => 10 * a + charVal c) a = a * 10 ^ l.length + natFromDigits l := by
  induction l generalizing a with
  | nil => simp [natFromDigits]
  | cons c t ih =>
    have h1 : (c :: t).foldl (fun a c => 10 * a + charVal c) a
        = t.foldl (fun a c => 10 * a + charVal c) (10 * a + charVal c) := rfl
    have h2 : natFromDigits (c :: t)
        = t.foldl (fun a c => 10 * a + charVal c) (10 * 0 + charVal c) := rfl
    rw [h1, h2, ih, ih (10 * 0 + charVal c)]
    simp [List.length_cons, pow_succ]
    ring

theorem natFromDigits_append (l r : List Char) :
    natFromDigits (l ++ r) = natFromDigits l * 10 ^ r.length + natFromDigits r := by
  unfold natFromDigits
  rw [List.foldl_append, natFromDigits_aux]
  rfl

theorem natFromDigits_rev_digits (ds : List Nat) (h : ∀ d ∈ ds, d < 10) :
    natFromDigits (ds.reverse.map digitChar) = Nat.ofDigits 10 ds := by
  induction ds with
  | nil => simp [natFromDigits, Nat.ofDigits_nil]
  | cons d t ih =>
    rw [List.reverse_cons, List.map_append, natFromDigits_append,
      ih (fun x hx => h x (List.mem_cons_of_mem d hx)), Nat.ofDigits_cons]
    have hd : natFromDigits [digitChar d] = d := by
      have h0 : natFromDigits [digitChar d] = 10 * 0 + charVal (digitChar d) := rfl
      rw [h0, charVal_digitChar (h d (List.mem_cons_self d t))]
      omega
    simp only [List.map_cons, List.map_nil, List.length_cons, List.length_nil, hd]
    simp
    ring

theorem natFromDigits_decDigits (n : Nat) : natFromDigits (decDigits n) = n := by
  unfold decDigits
  split
  · rename_i hn
    subst hn
    decide
  · rw [digitsLEFuel_eq_digits n n le_rfl, natFromDigits_rev_digits _
      (fun d hd => Nat.digits_lt_base (by norm_num) hd), Nat.ofDigits_digits]

theorem natFromDigits_replicate_zero (k : Nat) (l : List Char) :
    natFromDigits (List.replicate k '0' ++ l) = natFromDigits l := by
  induction k with
  | zero => simp
  | succ k ih =>
    rw [List.replicate_succ]
    have : natFromDigits (('0' :: List.replicate k '0') ++ l)
        = natFromDigits (List.replicate k '0' ++ l) := rfl
    rw [this, ih]

theorem takeDigits_append (l r : List Char) (hl : ∀ c ∈ l, c.isDigit = true)
    (hr : ∀ c, r.head? = some c → c.isDigit = false) :
    takeDigits (l ++ r) = (l, r) := by
  induction l with
  | nil =>
    simp only [List.nil_append]
    match r with
    | [] => rfl
    | c :: t =>
      have hc := hr c rfl
      unfold takeDigits
      rw [if_neg (by simp [hc])]
  | cons c t ih =>
    have hc : c.isDigit = true := hl c (List.mem_cons_self c t)
    have h1 : takeDigits (c :: (t ++ r))
        = if c.isDigit then ((c :: (takeDigits (t ++ r)).1), (takeDigits (t ++ r)).2)
          else ([], c :: (t ++ r)) := rfl
    rw [List.cons_append, h1, if_pos hc, ih (fun x hx => hl x (List.mem_cons_of_mem c hx))]

theorem takeDigits_all (l : List Char) (hl : ∀ c ∈ l, c.isDigit = true) :
    takeDigits l = (l, []) := by
  have h := takeDigits_append l [] hl (fun c hc => by simp at hc)
  simpa using h

theorem parseExpPart_signedIntStr (n : Int) : parseExpPart (signedIntStr n) = some n := by
  have hd := decDigits_isDigit n.natAbs
  have hne := decDigits_ne_nil n.natAbs
  have htd := takeDigits_all (decDigits n.natAbs) hd
  have hval := natFromDigits_decDigits n.natAbs
  unfold signedIntStr parseExpPart
  by_cases hn : 0 ≤ n
  · rw [if_pos hn]
    simp only [List.singleton_append, List.head?_cons, List.tail_cons, htd, hval]
    rw [if_pos trivial, if_pos ⟨hne, trivial⟩]
    congr 1
    omega
  · rw [if_neg hn]
    simp only [List.singleton_append, List.head?_cons, List.tail_cons, htd, hval]
    rw [if_neg (by decide), if_pos trivial, if_pos ⟨hne, trivial⟩]
    congr 1
    omega

theorem parseMagnitude_pyUnsignedStr (n : Nat) (e : Int)
    (h1 : e ≤ 0) (h2 : -6 < e + ((decDigits n).length : Int)) :
    parseMagnitude (pyUnsignedStr n e) = some (n, e) := by
  have hcond : e ≤ 0 ∧ -6 < e + ((decDigits n).length : Int) := ⟨h1, h2⟩
  have hdigs := decDigits_isDigit n
  have hne := decDigits_ne_nil n
  have hlen : 0 < (decDigits n).length := List.length_pos.mpr hne
  simp only [pyUnsignedStr]
  rw [if_pos hcond,
    if_pos (rfl : e + ((decDigits n).length : Int) = e + ((decDigits n).length : Int)),
    List.append_nil]
  by_cases hA : e + ((decDigits n).length : Int) ≤ 0
  · rw [if_pos hA]
    have hrep : ∀ c ∈ List.replicate (-(e + ((decDigits n).length : Int))).toNat '0'
        ++ decDigits n, c.isDigit = true := by
      intro c hc
      rcases List.mem_append.mp hc with h | h
      · rw [List.eq_of_mem_replicate h]; decide
      · exact hdigs c h
    have ht2 := takeDigits_all _ hrep
    have ht1 : takeDigits ('0' :: '.' :: (List.replicate
          (-(e + ((decDigits n).length : Int))).toNat '0' ++ decDigits n))
        = (['0'], '.' :: (List.replicate
          (-(e + ((decDigits n).length : Int))).toNat '0' ++ decDigits n)) := by
      have h := takeDigits_append ['0'] ('.' :: (List.replicate
          (-(e + ((decDigits n).length : Int))).toNat '0' ++ decDigits n))
        (by intro c hc; simp at hc; subst hc; decide)
        (by intro c hc; simp at hc; subst hc; decide)
      simpa using h
    simp only [parseMagnitude, ht1, List.head?_cons, List.tail_cons, ht2, if_true]
    rw [if_neg (by simp)]
    have hm : natFromDigits (['0'] ++ (List.replicate
          (-(e + ((decDigits n).length : Int))).toNat '0' ++ decDigits n)) = n := by
      rw [List.singleton_append, ← List.cons_append, ← List.replicate_succ,
        natFromDigits_replicate_zero, natFromDigits_decDigits]
    rw [hm]
    simp only [Option.some.injEq, Prod.mk.injEq, List.length_append, List.length_replicate]
    refine ⟨trivial, ?_⟩
    push_cast
    omega
  · rw [if_neg hA]
    by_cases hB : ((decDigits n).length : Int) ≤ e + ((decDigits n).length : Int)
    · rw [if_pos hB]
      have he0 : e = 0 := by omega
      subst he0
      have hz : ((0 : Int) + ((decDigits n).length : Int)
          - ((decDigits n).length : Int)).toNat = 0 := by omega
      rw [hz, List.replicate_zero, List.append_nil]
      have ht1 := takeDigits_all _ hdigs
      simp only [parseMagnitude, ht1]
      simp [hne, natFromDigits_decDigits]
    · rw [if_neg hB]
      have hkpos : 0 < (e + ((decDigits n).length : Int)).toNat := by omega
      have hklt : (e + ((decDigits n).length : Int)).toNat < (decDigits n).length := by omega
      have htake : ∀ c ∈ (decDigits n).take (e + ((decDigits n).length : Int)).toNat,
          c.isDigit = true := fun c hc => hdigs c (List.take_subset _ _ hc)
      have hdrop : ∀ c ∈ (decDigits n).drop (e + ((decDigits n).length : Int)).toNat,
          c.isDigit = true := fun c hc => hdigs c (List.drop_subset _ _ hc)
      have ht2 := takeDigits_all _ hdrop
      have ht1 := takeDigits_append
        ((decDigits n).take (e + ((decDigits n).length : Int)).toNat)
        ('.' :: (decDigits n).drop (e + ((decDigits n).length : Int)).toNat)
        htake (by intro c hc; simp at hc; subst hc; decide)
      have hdropne : (decDigits n).drop (e + ((decDigits n).length : Int)).toNat ≠ [] := by
        apply List.ne_nil_of_length_pos
        rw [List.length_drop]
        omega
      simp only [parseMagnitude, ht1, List.head?_cons, List.tail_cons, ht2, if_true]
      rw [if_neg (by simp [hdropne])]
      rw [List.take_append_drop, natFromDigits_decDigits]
      simp only [Option.some.injEq, Prod.mk.injEq, List.length_drop]
      refine ⟨trivial, ?_⟩
      push_cast [Nat.cast_sub (le_of_lt hklt)]
      omega

theorem pyUnsignedStr_head_isDigit (n : Nat) (e : Int)
    (h1 : e ≤ 0) (h2 : -6 < e + ((decDigits n).length : Int)) :
    ∀ c, (pyUnsignedStr n e).head? = some c → c.isDigit = true := by
  have hcond : e ≤ 0 ∧ -6 < e + ((decDigits n).length : Int) := ⟨h1, h2⟩
  have hdigs := decDigits_isDigit n
  have hne := decDigits_ne_nil n
  obtain ⟨c0, t0, hct⟩ := List.exists_cons_of_ne_nil hne
  have hc0 : c0.isDigit = true := hdigs c0 (by rw [hct]; exact List.mem_cons_self c0 t0)
  intro c hc
  simp only [pyUnsignedStr] at hc
  rw [if_pos hcond,
    if_pos (rfl : e + ((decDigits n).length : Int) = e + ((decDigits n).length : Int)),
    List.append_nil] at hc
  by_cases hA : e + ((decDigits n).length : Int) ≤ 0
  · rw [if_pos hA] at hc
    simp only [List.head?_cons, Option.some.injEq] at hc
    subst hc
    decide
  · rw [if_neg hA] at hc
    by_cases hB : ((decDigits n).length : Int) ≤ e + ((decDigits n).length : Int)
    · rw [if_pos hB, hct, List.cons_append, List.head?_cons, Option.some.injEq] at hc
      subst hc
      exact hc0
    · rw [if_neg hB] at hc
      obtain ⟨k, hk⟩ : ∃ k, (e + ((decDigits n).length : Int)).toNat = k + 1 :=
        ⟨(e + ((decDigits n).length : Int)).toNat - 1, by omega⟩
      rw [hk, hct] at hc
      simp only [List.take_succ_cons, List.cons_append, List.head?_cons,
        Option.some.injEq] at hc
      subst hc
      exact hc0

theorem parseDecStr_pyStr_plain (d : PyDecimal)
    (h1 : d.exp ≤ 0) (h2 : -6 < d.exp + ((decDigits d.mant.natAbs).length : Int)) :
    parseDecStr (pyStr d) = some d := by
  have hmag := parseMagnitude_pyUnsignedStr d.mant.natAbs d.exp h1 h2
  unfold pyStr parseDecStr
  by_cases hm : d.mant < 0
  · rw [if_pos hm]
    simp only [List.singleton_append, List.head?_cons, List.tail_cons]
    rw [if_pos trivial, hmag]
    simp only [Option.map_some']
    congr 1
    cases d with
    | mk m e =>
      simp only at hm ⊢
      congr 1
      omega
  · rw [if_neg hm, List.nil_append]
    have hhead := pyUnsignedStr_head_isDigit d.mant.natAbs d.exp h1 h2
    rw [if_neg (fun hcon => by have h := hhead '-' hcon; simp at h)]
    rw [if_neg (fun hcon => by have h := hhead '+' hcon; simp at h)]
    rw [hmag]
    simp only [Option.map_some']
    congr 1
    cases d with
    | mk m e =>
      simp only at hm ⊢
      congr 1
      omega

/-- The string `str()` produces for a scale-2 `Decimal` — the form every
stored amount takes after the `Numeric(10,2)` round trip — parses back to
exactly the same `Decimal`. -/
theorem parseDecStr_pyStr_scale2 (d : PyDecimal) (h : d.exp = -2) :
    parseDecStr (pyStr d) = some d := by
  apply parseDecStr_pyStr_plain d (by omega)
  have hlen : 0 < (decDigits d.mant.natAbs).length :=
    List.length_pos.mpr (decDigits_ne_nil d.mant.natAbs)
  omega

theorem decValue_computeTotal_aux (items : List OrderItemRequest) (acc : PyDecimal) :
    decValue (items.foldl
      (fun acc it => decAdd acc (decMul it.price (decOfInt it.quantity))) acc)
    = decValue acc + specItemsTotal items := by
  induction items generalizing acc with
  | nil => simp [specItemsTotal]
  | cons it t ih =>
    rw [List.foldl_cons, ih, decValue_decAdd, decValue_decMul, decValue_decOfInt]
    simp only [specItemsTotal, List.map_cons, List.sum_cons]
    ring

/-- The fold the code runs agrees with the specification's
Σ(price × quantity), read as exact rationals. -/
theorem decValue_computeTotal (items : List OrderItemRequest) :
    decValue (computeTotal items) = specItemsTotal items := by
  unfold computeTotal
  rw [decValue_computeTotal_aux]
  simp [decValue_decOfInt]

/-- **C1, counterexample.**  The claim says the `total_amount` stored on the
created Order row equals Σ(price × quantity) exactly.  For the checkout
request with the single item `{product 1, quantity 1, price 0.005}` the sum
is 0.005, but the `Numeric(10,2)` column rounds the stored (and returned)
total to 0.01. -/
theorem C1_counterexample :
    decValue ((checkout ⟨1, "u@example.com", [⟨1, 1, ⟨5, -3⟩⟩]⟩
        1 "e" "n" 0 false).order.total_amount) = 1 / 100
    ∧ specItemsTotal [⟨1, 1, ⟨5, -3⟩⟩] = 1 / 200
    ∧ decValue ((checkout ⟨1, "u@example.com", [⟨1, 1, ⟨5, -3⟩⟩]⟩
        1 "e" "n" 0 false).order.total_amount)
      ≠ specItemsTotal [⟨1, 1, ⟨5, -3⟩⟩] := by
  refine ⟨by norm_num [checkout, computeTotal, quantize2, roundHalfAway, decValue,
      decAdd, decMul, decOfInt, specItemsTotal], ?_, ?_⟩
  · norm_num [specItemsTotal, decValue]
  · norm_num [checkout, computeTotal, quantize2, roundHalfAway, decValue,
      decAdd, decMul, decOfInt, specItemsTotal]

/-- **C1, amended.**  The `total_amount` stored on the created Order row is
the item sum Σ(price × quantity) — computed once, in step 1 of `checkout` —
rounded to the 2-decimal scale of the `Numeric(10,2)` column; whenever the
sum already has at most two decimal places (exponent ≥ -2) the stored value
equals the sum exactly.  The response carries the stored value, and
`get_order` returns the stored value unchanged: no later operation
recomputes it. -/
theorem C1_total_amount (req : CheckoutRequest) (oid : Int) (eid now : String)
    (dur : Int) (pr : Bool) :
    (checkout req oid eid now dur pr).order.total_amount
      = quantize2 (computeTotal req.items)
    ∧ (-2 ≤ (computeTotal req.items).exp →
        decValue (checkout req oid eid now dur pr).order.total_amount
          = specItemsTotal req.items)
    ∧ (checkout req oid eid now dur pr).response.total_amount
      = (checkout req oid eid now dur pr).order.total_amount
    ∧ (getOrder (checkout req oid eid now dur pr).order).total_amount
      = (checkout req oid eid now dur pr).order.total_amount := by
  refine ⟨rfl, ?_, rfl, rfl⟩
  intro h
  show decValue (quantize2 (computeTotal req.items)) = specItemsTotal req.items
  rw [decValue_quantize2_of_le _ h, decValue_computeTotal]

/-- **C1 witness.**  The amended claim evaluated on the spec's concrete
scenario: items `[{1, qty 2, price 10.00}, {2, qty 1, price 5.00}]`, whose
sum 25.00 has two decimal places and is stored exactly. -/
theorem C1_total_amount_witness :
    -2 ≤ (computeTotal [⟨1, 2, ⟨1000, -2⟩⟩, ⟨2, 1, ⟨500, -2⟩⟩]).exp
    ∧ decValue (checkout ⟨42, "buyer@example.com", [⟨1, 2, ⟨1000, -2⟩⟩, ⟨2, 1, ⟨500, -2⟩⟩]⟩
        1 "e" "n" 30 false).order.total_amount
      = specItemsTotal [⟨1, 2, ⟨1000, -2⟩⟩, ⟨2, 1, ⟨500, -2⟩⟩] :=
  ⟨by decide,
    (C1_total_amount ⟨42, "buyer@example.com", [⟨1, 2, ⟨1000, -2⟩⟩, ⟨2, 1, ⟨500, -2⟩⟩]⟩
      1 "e" "n" 30 false).2.1 (by decide)⟩

/-- **C2.**  A publish failure (the broker unreachable when
`event_publisher.publish_event` is called) leaves the persisted order
byte-for-byte what it is on the successful-publish path, and the handler
still returns the success response built from that order: the `except`
around the publish swallows the error.  (`publishRaises = true` is the
failing publish; persistence itself is the model's unconditional step, so
every modelled request is one whose Order row was durably persisted.) -/
theorem C2_publish_failure_isolated (req : CheckoutRequest) (oid : Int)
    (eid now : String) (dur : Int) :
    (checkout req oid eid now dur true).order = (checkout req oid eid now dur false).order
    ∧ (checkout req oid eid now dur true).response
      = (checkout req oid eid now dur false).response
    ∧ (checkout req oid eid now dur true).response.id
      = (checkout req oid eid now dur true).order.id
    ∧ (checkout req oid eid now dur true).response.status
      = (checkout req oid eid now dur true).order.status
    ∧ (checkout req oid eid now dur true).response.total_amount
      = (checkout req oid eid now dur true).order.total_amount
    ∧ (checkout req oid eid now dur true).response.user_id
      = (checkout req oid eid now dur true).order.user_id
    ∧ (checkout req oid eid now dur true).response.user_email
      = (checkout req oid eid now dur true).order.user_email
    ∧ (checkout req oid eid now dur true).publishes = [] :=
  ⟨rfl, rfl, rfl, rfl, rfl, rfl, rfl, rfl⟩

/-- **C3.**  One delivered, well-formed `order.created` event (the schema
fields present, the amount a valid decimal string) makes `process_payment`
create exactly one Payment row, committed first with status `"pending"`;
the row it last commits is `"completed"` when the simulated gateway call
returns and `"failed"` when it raises; and exactly in the completed case
exactly one `basic_publish` call is made, a `payment.processed` event on
routing key `payment.payment.processed`. -/
theorem C3_payment_exactly_once (m : OrderCreatedMsg) (oid uid : Int) (em : String)
    (amtStr : List Char) (amt : PyDecimal) (pid : Int) (txn eid now : String) (gw : Bool)
    (h1 : m.order_id = some oid) (h2 : m.user_id = some uid)
    (h3 : m.user_email = some em) (h4 : m.total_amount = some amtStr)
    (h5 : parseDecStr amtStr = some amt) :
    ((processPayment m pid txn eid now gw).created
        = some ⟨pid, oid, uid, quantize2 amt, "pending", none⟩)
    ∧ (∃ q, (processPayment m pid txn eid now gw).final = some q
        ∧ q.id = pid ∧ q.status = (if gw then "failed" else "completed"))
    ∧ (gw = false → (processPayment m pid txn eid now gw).published.length = 1
        ∧ ∀ pub ∈ (processPayment m pid txn eid now gw).published,
            pub.routing_key = "payment.payment.processed"
            ∧ pub.event.event_type = "payment.processed"
            ∧ pub.event.status = "completed")
    ∧ (gw = true → (processPayment m pid txn eid now gw).published = []) := by
  simp only [processPayment, h1, h2, h3, h4, h5]
  cases gw <;> simp

/-- **C3 witness.**  The dichotomy evaluated on the concrete well-formed
event `demoMsg` for both gateway outcomes. -/
theorem C3_payment_exactly_once_witness :
    ((processPayment demoMsg 7 "TXN-1" "e" "n" false).created
        = some ⟨7, 3, 42, quantize2 ⟨2500, -2⟩, "pending", none⟩)
    ∧ (∃ q, (processPayment demoMsg 7 "TXN-1" "e" "n" false).final = some q
        ∧ q.id = 7 ∧ q.status = (if false then "failed" else "completed"))
    ∧ (∃ q, (processPayment demoMsg 7 "TXN-1" "e" "n" true).final = some q
        ∧ q.id = 7 ∧ q.status = (if true then "failed" else "completed"))
    ∧ (false = false → (processPayment demoMsg 7 "TXN-1" "e" "n" false).published.length = 1
        ∧ ∀ pub ∈ (processPayment demoMsg 7 "TXN-1" "e" "n" false).published,
            pub.routing_key = "payment.payment.processed"
            ∧ pub.event.event_type = "payment.processed"
            ∧ pub.event.status = "completed")
    ∧ (true = true → (processPayment demoMsg 7 "TXN-1" "e" "n" true).published = []) := by
  have hf := C3_payment_exactly_once demoMsg 3 42 "buyer@example.com"
    ('2' :: '5' :: '.' :: '0' :: '0' :: []) ⟨2500, -2⟩ 7 "TXN-1" "e" "n" false
    rfl rfl rfl rfl (by decide)
  have ht := C3_payment_exactly_once demoMsg 3 42 "buyer@example.com"
    ('2' :: '5' :: '.' :: '0' :: '0' :: []) ⟨2500, -2⟩ 7 "TXN-1" "e" "n" true
    rfl rfl rfl rfl (by decide)
  exact ⟨hf.1, hf.2.1, ht.2.1, hf.2.2.1, ht.2.2.2⟩

/-- **C4.**  When the simulated gateway call raises, the (already created)
Payment row is committed with status `"failed"` and no `basic_publish`
call at all is made for that delivery; moreover — on any delivery, however
formed, and either gateway outcome — every publish the Payment Worker ever
makes carries routing key `payment.payment.processed`, never
`payment.payment.failed`, even though the shared schema declares the
`payment.failed` event type (`paymentFailedEventType`). -/
theorem C4_gateway_failure_no_event :
    (∀ (m : OrderCreatedMsg) (oid uid : Int) (amtStr : List Char) (amt : PyDecimal)
        (pid : Int) (txn eid now : String),
      m.order_id = some oid → m.user_id = some uid → m.total_amount = some amtStr →
      parseDecStr amtStr = some amt →
      (∃ q, (processPayment m pid txn eid now true).final = some q ∧ q.status = "failed")
      ∧ (processPayment m pid txn eid now true).published = [])
    ∧ (∀ (m : OrderCreatedMsg) (pid : Int) (txn eid now : String) (gw : Bool),
        ∀ pub ∈ (processPayment m pid txn eid now gw).published,
          pub.routing_key = "payment.payment.processed"
          ∧ pub.routing_key ≠ "payment.payment.failed")
    ∧ paymentFailedEventType = "payment.failed" := by
  refine ⟨?_, ?_, rfl⟩
  · intro m oid uid amtStr amt pid txn eid now h1 h2 h4 h5
    simp only [processPayment, h1, h2, h4, h5]
    simp
  · intro m pid txn eid now gw pub hpub
    rcases hm1 : m.order_id with _ | oid
    · simp [processPayment, hm1] at hpub
    rcases hm4 : m.total_amount with _ | amtStr
    · simp [processPayment, hm1, hm4] at hpub
    rcases hm2 : m.user_id with _ | uid
    · simp [processPayment, hm1, hm4, hm2] at hpub
    rcases hm5 : parseDecStr amtStr with _ | amt
    · simp [processPayment, hm1, hm4, hm2, hm5] at hpub
    cases gw with
    | true => simp [processPayment, hm1, hm4, hm2, hm5] at hpub
    | false =>
      rcases hm3 : m.user_email with _ | em
      · simp [processPayment, hm1, hm4, hm2, hm5, hm3] at hpub
      · simp [processPayment, hm1, hm4, hm2, hm5, hm3] at hpub
        rw [hpub]
        exact ⟨rfl, by simp⟩

/-- **C4 witness.**  The gateway-failure half evaluated on `demoMsg`. -/
theorem C4_gateway_failure_no_event_witness :
    ((∃ q, (processPayment demoMsg 7 "TXN-1" "e" "n" true).final = some q
        ∧ q.status = "failed")
      ∧ (processPayment demoMsg 7 "TXN-1" "e" "n" true).published = [])
    ∧ ∀ pub ∈ (processPayment demoMsg 7 "TXN-1" "e" "n" false).published,
        pub.routing_key = "payment.payment.processed"
        ∧ pub.routing_key ≠ "payment.payment.failed" :=
  ⟨C4_gateway_failure_no_event.1 demoMsg 3 42
      ('2' :: '5' :: '.' :: '0' :: '0' :: []) ⟨2500, -2⟩ 7 "TXN-1" "e" "n"
      rfl rfl rfl (by decide),
    C4_gateway_failure_no_event.2.1 demoMsg 7 "TXN-1" "e" "n" false⟩

/-- **C5.**  For a delivered, well-formed `payment.processed` event, the
Email Worker starts exactly one email-send attempt when the event's
`status` is `"completed"`, and zero attempts when it is `"failed"` (the
event is only warned about and skipped) — for either behaviour of the
sender (`s`). -/
theorem C5_email_attempts (m : PaymentProcessedMsg) (et em : String) (oid : Int)
    (am : List Char) (s : Bool)
    (h_et : m.event_type = some et) (h_em : m.user_email = some em)
    (h_oid : m.order_id = some oid) (h_am : m.amount = some am) :
    (m.status = some "completed" → (emailCallback (some m) s).attempts.length = 1)
    ∧ (m.status = some "failed" → (emailCallback (some m) s).attempts = []) := by
  constructor
  · intro hs
    simp [emailCallback, h_et, hs, sendConfirmationEmail, h_em, h_oid, h_am]
  · intro hs
    simp [emailCallback, h_et, hs]

/-- **C5 witness.**  One attempt for the completed fixture, zero for its
`status = "failed"` variant. -/
theorem C5_email_attempts_witness :
    (emailCallback (some demoPayMsg) false).attempts.length = 1
    ∧ (emailCallback (some ⟨some "payment.processed", some "failed",
        some "buyer@example.com", some 3,
        some ('2' :: '5' :: '.' :: '0' :: '0' :: []), none⟩) false).attempts = [] :=
  ⟨(C5_email_attempts demoPayMsg "payment.processed" "buyer@example.com" 3
      ('2' :: '5' :: '.' :: '0' :: '0' :: []) false rfl rfl rfl rfl).1 rfl,
    (C5_email_attempts ⟨some "payment.processed", some "failed",
        some "buyer@example.com", some 3,
        some ('2' :: '5' :: '.' :: '0' :: '0' :: []), none⟩
      "payment.processed" "buyer@example.com" 3
      ('2' :: '5' :: '.' :: '0' :: '0' :: []) false rfl rfl rfl rfl).2 rfl⟩

/-- **C6.**  In both consumers: whenever handling a delivery lets an
exception reach the consume callback (`caught ≠ none`), the message is
answered with `basic_nack(requeue=False)` and never acknowledged; when
nothing escapes, it is acknowledged; and no delivery is ever requeued. -/
theorem C6_drop_on_error :
    (∀ (body : Option OrderCreatedMsg) (pid : Int) (txn eid now : String) (gw : Bool),
      ((paymentCallback body pid txn eid now gw).caught ≠ none →
        (paymentCallback body pid txn eid now gw).result = .nack false
        ∧ (paymentCallback body pid txn eid now gw).result ≠ .ack)
      ∧ ((paymentCallback body pid txn eid now gw).caught = none →
        (paymentCallback body pid txn eid now gw).result = .ack)
      ∧ (paymentCallback body pid txn eid now gw).result ≠ .nack true)
    ∧ (∀ (body : Option PaymentProcessedMsg) (s : Bool),
      ((emailCallback body s).caught ≠ none →
        (emailCallback body s).result = .nack false
        ∧ (emailCallback body s).result ≠ .ack)
      ∧ ((emailCallback body s).caught = none → (emailCallback body s).result = .ack)
      ∧ (emailCallback body s).result ≠ .nack true) := by
  constructor
  · intro body pid txn eid now gw
    rcases body with _ | m
    · simp [paymentCallback]
    rcases h1 : m.event_type with _ | et
    · simp [paymentCallback, h1]
    rcases h2 : (processPayment m pid txn eid now gw).raised with _ | err
    · simp [paymentCallback, h1, h2]
    · simp [paymentCallback, h1, h2]
  · intro body s
    rcases body with _ | m
    · simp [emailCallback]
    rcases h1 : m.event_type with _ | et
    · simp [emailCallback, h1]
    · simp [emailCallback, h1]

/-- **C6 witness.**  A failing delivery (unparsable body) is dropped with
`requeue=False` by the Payment Worker, and a clean delivery is
acknowledged by the Email Worker. -/
theorem C6_drop_on_error_witness :
    ((paymentCallback none 1 "t" "e" "n" false).result = AckOutcome.nack false
      ∧ (paymentCallback none 1 "t" "e" "n" false).result ≠ AckOutcome.ack)
    ∧ (emailCallback (some demoPayMsg) false).result = AckOutcome.ack :=
  ⟨(C6_drop_on_error.1 none 1 "t" "e" "n" false).1 (by decide),
    (C6_drop_on_error.2 (some demoPayMsg) false).2.1 (by decide)⟩

/-- **C7.**  A delivered `payment.processed` event the Email Worker
handles (it parses, and carries the schema's `event_type` so the logging
line succeeds) is acknowledged whatever the email-send attempt does: the
send failure is caught inside `send_confirmation_email`, so the callback
always reaches `basic_ack` — the result does not depend on the sender's
behaviour at all. -/
theorem C7_email_ack_regardless (m : PaymentProcessedMsg) (et : String) (s : Bool)
    (h : m.event_type = some et) :
    (emailCallback (some m) s).result = AckOutcome.ack
    ∧ (emailCallback (some m) true).result = (emailCallback (some m) false).result := by
  constructor
  · simp [emailCallback, h]
  · simp [emailCallback, h]

/-- **C7 witness.**  The completed fixture is acknowledged with a raising
sender. -/
theorem C7_email_ack_regardless_witness :
    (emailCallback (some demoPayMsg) true).result = AckOutcome.ack :=
  (C7_email_ack_regardless demoPayMsg "payment.processed" true rfl).1

/-- **C8, counterexample.**  The claim says a checkout with an empty cart is
rejected as a client-facing business-rule error with no Order row and no
event.  The microservices `checkout` (order service; the gateway forwards
verbatim) has no such check: the empty-items request is accepted, a
`"pending"` Order row with total 0.00 is persisted, the `order.created`
event is published, and the success response is returned. -/
theorem C8_counterexample :
    (checkout ⟨7, "u@example.com", []⟩ 1 "e" "n" 5 false).order.status = "pending"
    ∧ decValue (checkout ⟨7, "u@example.com", []⟩ 1 "e" "n" 5 false).order.total_amount = 0
    ∧ (checkout ⟨7, "u@example.com", []⟩ 1 "e" "n" 5 false).publishes.length = 1
    ∧ (checkout ⟨7, "u@example.com", []⟩ 1 "e" "n" 5 false).response.id = 1 := by
  refine ⟨rfl, ?_, rfl, rfl⟩
  norm_num [checkout, computeTotal, decOfInt, quantize2, decValue, roundHalfAway]

/-- **C8, amended.**  Checkout performs no input validation at all: every
request — an empty items list, non-positive quantities, negative prices —
is accepted, persists a `"pending"` Order row, attempts the event publish,
and returns the success response; an empty cart yields `total_amount`
0.00.  (Only the monolith's cart-based checkout, outside the cited
microservices path, rejects an empty cart.) -/
theorem C8_no_validation (req : CheckoutRequest) (oid : Int) (eid now : String)
    (dur : Int) :
    (checkout req oid eid now dur false).publishes.length = 1
    ∧ (checkout req oid eid now dur false).response.status = "pending"
    ∧ (checkout req oid eid now dur false).response.id = oid
    ∧ (checkout req oid eid now dur false).order.status = "pending"
    ∧ (req.items = [] →
        decValue (checkout req oid eid now dur false).order.total_amount = 0) := by
  refine ⟨rfl, rfl, rfl, rfl, ?_⟩
  intro h
  show decValue (quantize2 (computeTotal req.items)) = 0
  rw [h]
  norm_num [computeTotal, decOfInt, quantize2, decValue, roundHalfAway]

/-- **C8 witness.**  The amended claim evaluated on the empty-cart
request. -/
theorem C8_no_validation_witness :
    (([] : List OrderItemRequest) = [])
    ∧ decValue (checkout ⟨7, "u@example.com", []⟩ 1 "e" "n" 5 false).order.total_amount = 0 :=
  ⟨rfl, (C8_no_validation ⟨7, "u@example.com", []⟩ 1 "e" "n" 5).2.2.2.2 rfl⟩

/-- **C9.**  For every checkout whose `order.created` event reaches the
Payment Worker, the amount on the created Payment row is exactly the
order's stored `total_amount`, as a fixed-point decimal: the publisher
writes `str(order.total_amount)` into the event (a decimal string, no
binary floating point anywhere on the path), the worker reads it back with
`Decimal(...)` — an exact round trip for the scale-2 strings the order
column produces (`parseDecStr_pyStr_scale2`) — and the worker's own
`Numeric(10,2)` column stores a scale-2 value unchanged
(`quantize2_idem`). -/
theorem C9_amount_exact (req : CheckoutRequest) (oid : Int) (eid now : String)
    (dur : Int) (pid : Int) (txn eid2 now2 : String) (gw : Bool) :
    ∀ pub ∈ (checkout req oid eid now dur false).publishes,
      (processPayment (msgOfEvent pub.event) pid txn eid2 now2 gw).created
        = some ⟨pid, oid, req.user_id,
            (checkout req oid eid now dur false).order.total_amount, "pending", none⟩ := by
  intro pub hpub
  have hq : parseDecStr (pyStr (quantize2 (computeTotal req.items)))
      = some (quantize2 (computeTotal req.items)) :=
    parseDecStr_pyStr_scale2 _ (quantize2_exp _)
  have hidem : quantize2 (quantize2 (computeTotal req.items))
      = quantize2 (computeTotal req.items) :=
    quantize2_idem _ (quantize2_exp _)
  simp only [checkout] at hpub
  rw [if_neg (by decide)] at hpub
  rw [List.mem_singleton] at hpub
  subst hpub
  simp only [processPayment, msgOfEvent, hq, hidem]
  cases gw <;> rfl

/-- **C9 witness.**  The spec scenario: the 25.00 total crosses the event
boundary and lands on the Payment row unchanged. -/
theorem C9_amount_exact_witness :
    (processPayment (msgOfEvent ⟨"order.created", "e", "n", 1, 42,
        "buyer@example.com", pyStr ⟨2500, -2⟩, demoItems⟩) 7 "TXN-1" "e2" "n2" false).created
      = some ⟨7, 1, 42,
          (checkout demoReq 1 "e" "n" 30 false).order.total_amount, "pending", none⟩ :=
  C9_amount_exact demoReq 1 "e" "n" 30 7 "TXN-1" "e2" "n2" false
    ⟨"order.order.created", ⟨"order.created", "e", "n", 1, 42,
      "buyer@example.com", pyStr ⟨2500, -2⟩, demoItems⟩⟩ (by decide)

/-- **C10, counterexample.**  The claim says that for an event lacking
`order_id` the `except` branch's read of `payment` raises
`UnboundLocalError`.  In fact the `KeyError` from the pre-`try` logging
f-string propagates directly — the `except` (and hence the
`UnboundLocalError`) is never reached — though it remains true that no row
is created and the callback drops the message with `requeue=False`. -/
theorem C10_counterexample :
    (processPayment ⟨some "order.created", none, some 42, some "buyer@example.com",
        some ('2' :: '5' :: '.' :: '0' :: '0' :: [])⟩ 1 "t" "e" "n" false).raised
      = some (PyErr.keyError "order_id")
    ∧ (processPayment ⟨some "order.created", none, some 42, some "buyer@example.com",
        some ('2' :: '5' :: '.' :: '0' :: '0' :: [])⟩ 1 "t" "e" "n" false).raised
      ≠ some PyErr.unboundLocal
    ∧ (processPayment ⟨some "order.created", none, some 42, some "buyer@example.com",
        some ('2' :: '5' :: '.' :: '0' :: '0' :: [])⟩ 1 "t" "e" "n" false).created = none
    ∧ (paymentCallback (some ⟨some "order.created", none, some 42, some "buyer@example.com",
        some ('2' :: '5' :: '.' :: '0' :: '0' :: [])⟩) 1 "t" "e" "n" false).result
      = AckOutcome.nack false := by
  decide

/-- **C10, amended.**  An exception raised in `process_payment` before the
local `payment` is bound leaves no Payment row (none created, none marked
failed) and makes the outer callback drop the message with
`basic_nack(requeue=False)`; the exception that escapes is
`UnboundLocalError` — from the `except` branch's own `if payment:` — when
the failure happens inside the `try` (missing `user_id`, or a
`total_amount` string that is not a valid decimal), but it is the plain
`KeyError` of the pre-`try` logging lines when `order_id` or
`total_amount` is missing, because the `except` is never entered. -/
theorem C10_pre_binding_exceptions (m : OrderCreatedMsg) (pid : Int)
    (txn eid now : String) (gw : Bool) :
    (m.order_id = none →
      (processPayment m pid txn eid now gw).raised = some (PyErr.keyError "order_id")
      ∧ (processPayment m pid txn eid now gw).created = none
      ∧ (processPayment m pid txn eid now gw).final = none)
    ∧ (∀ oid, m.order_id = some oid → m.total_amount = none →
      (processPayment m pid txn eid now gw).raised = some (PyErr.keyError "total_amount")
      ∧ (processPayment m pid txn eid now gw).created = none
      ∧ (processPayment m pid txn eid now gw).final = none)
    ∧ (∀ oid s, m.order_id = some oid → m.total_amount = some s → m.user_id = none →
      (processPayment m pid txn eid now gw).raised = some PyErr.unboundLocal
      ∧ (processPayment m pid txn eid now gw).created = none
      ∧ (processPayment m pid txn eid now gw).final = none)
    ∧ (∀ oid s uid, m.order_id = some oid → m.total_amount = some s →
        m.user_id = some uid → parseDecStr s = none →
      (processPayment m pid txn eid now gw).raised = some PyErr.unboundLocal
      ∧ (processPayment m pid txn eid now gw).created = none
      ∧ (processPayment m pid txn eid now gw).final = none)
    ∧ (∀ et, m.event_type = some et →
        (processPayment m pid txn eid now gw).raised ≠ none →
      (paymentCallback (some m) pid txn eid now gw).result = AckOutcome.nack false) := by
  refine ⟨?_, ?_, ?_, ?_, ?_⟩
  · intro h1
    simp [processPayment, h1]
  · intro oid h1 h4
    simp [processPayment, h1, h4]
  · intro oid s h1 h4 h2
    simp [processPayment, h1, h4, h2]
  · intro oid s uid h1 h4 h2 h5
    simp [processPayment, h1, h4, h2, h5]
  · intro et h_et hraised
    rcases h2 : (processPayment m pid txn eid now gw).raised with _ | err
    · exact absurd h2 hraised
    · simp [paymentCallback, h_et, h2]

/-- **C10 witness.**  The amended claim evaluated on a missing `order_id`
(pre-`try` `KeyError`), on an unparsable `total_amount`
(`UnboundLocalError`), and on the resulting nack. -/
theorem C10_pre_binding_exceptions_witness :
    ((processPayment ⟨some "order.created", none, some 42, some "u@e",
        some ('2' :: '5' :: '.' :: '0' :: '0' :: [])⟩ 1 "t" "e" "n" false).raised
      = some (PyErr.keyError "order_id")
      ∧ (processPayment ⟨some "order.created", none, some 42, some "u@e",
        some ('2' :: '5' :: '.' :: '0' :: '0' :: [])⟩ 1 "t" "e" "n" false).created = none
      ∧ (processPayment ⟨some "order.created", none, some 42, some "u@e",
        some ('2' :: '5' :: '.' :: '0' :: '0' :: [])⟩ 1 "t" "e" "n" false).final = none)
    ∧ ((processPayment ⟨some "order.created", some 3, some 42, some "u@e",
        some ('a' :: 'b' :: 'c' :: [])⟩ 1 "t" "e" "n" false).raised
      = some PyErr.unboundLocal
      ∧ (processPayment ⟨some "order.created", some 3, some 42, some "u@e",
        some ('a' :: 'b' :: 'c' :: [])⟩ 1 "t" "e" "n" false).created = none
      ∧ (processPayment ⟨some "order.created", some 3, some 42, some "u@e",
        some ('a' :: 'b' :: 'c' :: [])⟩ 1 "t" "e" "n" false).final = none)
    ∧ (paymentCallback (some ⟨some "order.created", some 3, some 42, some "u@e",
        some ('a' :: 'b' :: 'c' :: [])⟩) 1 "t" "e" "n" false).result
      = AckOutcome.nack false :=
  ⟨(C10_pre_binding_exceptions ⟨some "order.created", none, some 42, some "u@e",
      some ('2' :: '5' :: '.' :: '0' :: '0' :: [])⟩ 1 "t" "e" "n" false).1 rfl,
    (C10_pre_binding_exceptions ⟨some "order.created", some 3, some 42, some "u@e",
      some ('a' :: 'b' :: 'c' :: [])⟩ 1 "t" "e" "n" false).2.2.2.1
      3 ('a' :: 'b' :: 'c' :: []) 42 rfl rfl rfl (by decide),
    (C10_pre_binding_exceptions ⟨some "order.created", some 3, some 42, some "u@e",
      some ('a' :: 'b' :: 'c' :: [])⟩ 1 "t" "e" "n" false).2.2.2.2
      "order.created" rfl (by decide)⟩
